import Mathlib

/-
Shallow embedding of the hotdog log-relay core: `src/kafka.rs` (the Kafka
egress engine: bounded relay channel, connect, sendloop, metric-name
normalization) and `src/serve_tls.rs` (TLS startup, the accept loop and the
connection counter).  External library effects (file reads, the rdkafka
metadata fetch, rustls certificate validation, delivery outcomes reported by
the broker) are passed in as explicit parameters; everything the repository
itself computes is translated directly from the Rust source.
-/

/-- Rust's `str::split(sep)` on a character list: splits at every occurrence
of `sep`, always yielding at least one (possibly empty) item — in particular
`split` of the empty string yields one empty item, mirroring
`"".split(' ').next() == Some("")` in Rust. -/
def rustSplit (sep : Char) : List Char → List (List Char)
  | [] => [[]]
  | c :: rest =>
    if c = sep then [] :: rustSplit sep rest
    else
      match rustSplit sep rest with
      | [] => [[c]]
      | t :: ts => (c :: t) :: ts

/-- Embedding of `metric_name_for` (kafka.rs lines 218-223).  The argument is
the human-readable description `err.to_string()` of the `RDKafkaError` (an
external library value), on which the Rust code runs
`.to_lowercase().split(' ').next()`; lowercasing is per-character, which
agrees with Rust's Unicode lowercasing on the ASCII descriptions involved. -/
def metric_name_for (desc : String) : String :=
  match (rustSplit ' ' (desc.data.map Char.toLower)).head? with
  | some name => String.mk name
  | none => "unknown"

/-- The head of `rustSplit` is the longest prefix free of the separator:
Rust's `split(sep).next()` returns the text before the first separator. -/
theorem rustSplit_head (sep : Char) (l : List Char) :
    (rustSplit sep l).head? = some (l.takeWhile (fun c => c ≠ sep)) := by
  induction l with
  | nil => rfl
  | cons c rest ih =>
    by_cases hc : c = sep
    · simp [rustSplit, hc, List.takeWhile]
    · cases hsplit : rustSplit sep rest with
      | nil => rw [hsplit] at ih; simp at ih
      | cons t ts =>
        rw [hsplit] at ih
        simp at ih
        simp [rustSplit, hc, hsplit, List.takeWhile, ih]

/-- C2 (counterexample): the claim fails on the empty description —
`metric_name_for` returns the empty string there, not `"unknown"`, because
Rust's `split(' ')` yields `Some("")` on an empty string, making the
`"unknown"` fallback unreachable.  The split is also on the space character
only, so a tab does not delimit the first token. -/
theorem metric_name_for_empty_counterexample :
    metric_name_for ("") = "" ∧
    metric_name_for ("") ≠ "unknown" ∧
    metric_name_for ("a\tb") = "a\tb" ∧
    metric_name_for ("a\tb") ≠ "a" := by
  decide

/-- C2 (amended): `metric_name_for` is a total deterministic function of the
error description: it lowercases the description per character and returns
the prefix before the first space character (the first space-delimited
token); a "message timed out"-class error yields "messagetimedout", an
"unknown topic"-class error yields "unknowntopic", a "read only"-class error
yields "readonly", and the empty description yields the empty string (the
`"unknown"` fallback branch is dead code). -/
theorem metric_name_for_spec :
    (∀ desc : String,
      metric_name_for desc =
        String.mk ((desc.data.map Char.toLower).takeWhile (fun c => c ≠ ' '))) ∧
    metric_name_for ("MessageTimedOut") = "messagetimedout" ∧
    metric_name_for ("UnknownTopic") = "unknowntopic" ∧
    metric_name_for ("ReadOnly") = "readonly" ∧
    metric_name_for ("Message timed out") = "message" ∧
    metric_name_for ("") = "" := by
  refine ⟨?_, by decide, by decide, by decide, by decide, by decide⟩
  intro desc
  unfold metric_name_for
  rw [rustSplit_head]

/-- A metric-sink event, per dipstick's counter/timer contract as used by
sendloop: a timer start at submission, a timer stop (the recorded sample),
or a counter increment. -/
inductive MetricEvent
  | timerStart (name : String)
  | timerStop (name : String)
  | count (name : String) (n : Nat)
deriving DecidableEq

/-- The shape of rdkafka's `KafkaError` as matched by sendloop (lines
170-191): the `MessageProduction` variant carries an `RDKafkaError`, modeled
here by its description string (what `err_type.to_string()` yields); every
other variant falls to the wildcard arm. -/
inductive KafkaErrorCase
  | messageProduction (desc : String)
  | otherVariant
deriving DecidableEq

/-- The delivery future's result as unwrapped in the completion closure:
`Ok(_)` or `Err((err, msg))`. -/
inductive DeliveryOutcome
  | ok
  | err (e : KafkaErrorCase)
deriving DecidableEq

/-- The namespace prepended to the normalized error name in
`format!("kafka.producer.error.{}", ...)` (kafka.rs line 182). -/
def errorMetricRoot : String := "kafka.producer.error."

/-- Metric events emitted by the completion closure of one send (kafka.rs
lines 161-195): success stops the timer and bumps `kafka.submitted`; a
`MessageProduction` failure bumps `kafka.producer.error.<normalized name>`;
any other failure bumps `kafka.producer.error.generic`. -/
def completionEvents : DeliveryOutcome → List MetricEvent
  | .ok =>
    [MetricEvent.timerStop ("kafka.producer.sent"),
     MetricEvent.count ("kafka.submitted") 1]
  | .err (.messageProduction desc) =>
    [MetricEvent.count (errorMetricRoot ++ metric_name_for desc) 1]
  | .err .otherVariant =>
    [MetricEvent.count ("kafka.producer.error.generic") 1]

/-- Metric events of one full sendloop iteration that dequeued a message
(kafka.rs lines 155-208): with a metrics sink configured, the timer
`kafka.producer.sent` is started at submission and the completion closure's
events follow; with no sink, the message is sent with no metric events. -/
def sendStepEvents (metricsPresent : Bool) (res : DeliveryOutcome) : List MetricEvent :=
  if metricsPresent then
    MetricEvent.timerStart ("kafka.producer.sent") :: completionEvents res
  else []

/-- Recognizes the success ("delivered"-class) counter increment. -/
def isSuccessCounter : MetricEvent → Bool
  | .count name _ => name == "kafka.submitted"
  | _ => false

/-- Recognizes an error counter increment: any counter whose name lives under
the `kafka.producer.error.` namespace. -/
def isErrorCounter : MetricEvent → Bool
  | .count name _ => errorMetricRoot.data.isPrefixOf name.data
  | _ => false

/-- Recognizes the recorded timer sample: the stop of `kafka.producer.sent`. -/
def isTimerSample : MetricEvent → Bool
  | .timerStop name => name == "kafka.producer.sent"
  | _ => false

/-- Recognizes the timer start emitted at submission. -/
def isTimerStart : MetricEvent → Bool
  | .timerStart name => name == "kafka.producer.sent"
  | _ => false

/-- A character list is a prefix of itself followed by anything. -/
theorem charList_isPrefixOf_append (l t : List Char) : l.isPrefixOf (l ++ t) = true := by
  induction l with
  | nil => simp [List.isPrefixOf]
  | cons c cs ih => simp [List.isPrefixOf, ih]

/-- A timer start is not an error counter. -/
theorem isErrorCounter_timerStart (n : String) :
    isErrorCounter (MetricEvent.timerStart n) = false := rfl

/-- A timer start is not the success counter. -/
theorem isSuccessCounter_timerStart (n : String) :
    isSuccessCounter (MetricEvent.timerStart n) = false := rfl

/-- Every counter under the error namespace is recognized as an error
counter. -/
theorem isErrorCounter_errorName (s : String) (n : Nat) :
    isErrorCounter (MetricEvent.count (errorMetricRoot ++ s) n) = true := by
  simp only [isErrorCounter]
  rw [String.data_append]
  exact charList_isPrefixOf_append _ _

/-- No counter under the error namespace is the success counter (the names
differ already in length). -/
theorem isSuccessCounter_errorName (s : String) (n : Nat) :
    isSuccessCounter (MetricEvent.count (errorMetricRoot ++ s) n) = false := by
  simp only [isSuccessCounter]
  rw [beq_eq_false_iff_ne]
  intro h
  have hl := congrArg String.length h
  rw [String.length_append] at hl
  have h1 : errorMetricRoot.length = 21 := rfl
  have h2 : String.length ("kafka.submitted") = 15 := rfl
  omega

/-- C1: in sendloop with a metrics sink configured, a send that completes
successfully records exactly one success counter increment, exactly one
timer sample and no error counter; a send that completes with a failure
records exactly one error counter increment, no success counter and no timer
sample; in both cases exactly one timer start was emitted at submission. -/
theorem sendloop_delivery_accounting (res : DeliveryOutcome) :
    (res = DeliveryOutcome.ok →
      (sendStepEvents true res).countP isSuccessCounter = 1 ∧
      (sendStepEvents true res).countP isTimerSample = 1 ∧
      (sendStepEvents true res).countP isErrorCounter = 0) ∧
    (∀ e, res = DeliveryOutcome.err e →
      (sendStepEvents true res).countP isErrorCounter = 1 ∧
      (sendStepEvents true res).countP isSuccessCounter = 0 ∧
      (sendStepEvents true res).countP isTimerSample = 0) ∧
    (sendStepEvents true res).countP isTimerStart = 1 := by
  refine ⟨?_, ?_, ?_⟩
  · intro h
    subst h
    decide
  · intro e h
    subst h
    cases e with
    | messageProduction desc =>
      refine ⟨?_, ?_, ?_⟩ <;>
        simp [sendStepEvents, completionEvents, List.countP_cons, List.countP_nil,
          isErrorCounter_errorName, isSuccessCounter_errorName, isTimerSample, isTimerStart,
          isErrorCounter_timerStart, isSuccessCounter_timerStart]
    | otherVariant => decide
  · cases res with
    | ok => decide
    | err e =>
      cases e with
      | messageProduction desc =>
        simp [sendStepEvents, completionEvents, List.countP_cons, List.countP_nil,
          isTimerStart]
      | otherVariant => decide

/-- C1 (witness): the accounting theorem instantiated at a successful
delivery and at a generic failure. -/
theorem sendloop_delivery_accounting_witness :
    ((sendStepEvents true DeliveryOutcome.ok).countP isSuccessCounter = 1 ∧
     (sendStepEvents true DeliveryOutcome.ok).countP isTimerSample = 1 ∧
     (sendStepEvents true DeliveryOutcome.ok).countP isErrorCounter = 0) ∧
    ((sendStepEvents true (DeliveryOutcome.err KafkaErrorCase.otherVariant)).countP isErrorCounter = 1 ∧
     (sendStepEvents true (DeliveryOutcome.err KafkaErrorCase.otherVariant)).countP isSuccessCounter = 0 ∧
     (sendStepEvents true (DeliveryOutcome.err KafkaErrorCase.otherVariant)).countP isTimerSample = 0) :=
  ⟨(sendloop_delivery_accounting DeliveryOutcome.ok).1 rfl,
   (sendloop_delivery_accounting (DeliveryOutcome.err KafkaErrorCase.otherVariant)).2.1
     KafkaErrorCase.otherVariant rfl⟩

/-- KafkaMessage (kafka.rs lines 22-25): a message and its destination
topic. -/
structure KafkaMessage where
  topic : String
  msg : String
deriving DecidableEq

/-- KafkaMessage::new (kafka.rs lines 28-30). -/
def KafkaMessage.new (topic : String) (msg : String) : KafkaMessage :=
  { topic := topic, msg := msg }

/-- rdkafka's ClientConfig modeled as a string-keyed map: `set` overwrites
the value stored under a key. -/
def ClientConfigM : Type := String → Option String

/-- ClientConfig::set. -/
def cfgSet (c : ClientConfigM) (key v : String) : ClientConfigM :=
  fun k => if k = key then some v else c k

/-- ClientConfig::new: no keys set. -/
def cfgEmpty : ClientConfigM := fun _ => none

/-- The client configuration built by connect (kafka.rs lines 77-88): every
key/value pair of the supplied map is `set`, then, if the `KAFKA_BROKER`
environment variable is present, its value is `set` under
`bootstrap.servers`, overriding any value from the map. -/
def buildRdConf (rdkafka_conf : List (String × String))
    (kafkaBrokerEnv : Option String) : ClientConfigM :=
  let base := rdkafka_conf.foldl (fun c kv => cfgSet c kv.1 kv.2) cfgEmpty
  match kafkaBrokerEnv with
  | some broker => cfgSet base ("bootstrap.servers") broker
  | none => base

/-- A bounded multi-producer channel state: the crossbeam `bounded(cap)`
channel of kafka.rs line 50, holding the queued messages in FIFO order. -/
structure BoundedChannel (α : Type) where
  cap : Nat
  items : List α
deriving DecidableEq

/-- The Kafka struct (kafka.rs lines 36-46): an optional producer handle (set
only by a successful connect), an optional metrics sink, and the two ends of
one bounded channel (modeled as the single channel `chan`).  The producer
handle is modeled by the client configuration it was created from. -/
structure Kafka where
  producer : Option ClientConfigM
  metrics : Option Unit
  chan : BoundedChannel KafkaMessage

/-- Kafka::new (kafka.rs lines 49-57): a bounded channel of capacity
`message_max`, no metrics, no producer. -/
def Kafka.new (message_max : Nat) : Kafka :=
  { metrics := none, producer := none,
    chan := { cap := message_max, items := [] } }

/-- Kafka::with_metrics (kafka.rs lines 59-61). -/
def Kafka.with_metrics (self : Kafka) : Kafka :=
  { self with metrics := some () }

/-- The observable outcome of Kafka::connect: the returned boolean, the
engine state after the call, and the timeout (in milliseconds) passed to the
blocking metadata fetch. -/
structure ConnectResult where
  ret : Bool
  state : Kafka
  timeoutUsed : Nat

/-- Kafka::connect (kafka.rs lines 72-117): builds the client configuration
(map entries, then the `KAFKA_BROKER` override), resolves the timeout
(`Duration::from_secs(10)` = 10000 ms when unspecified) and performs the
blocking metadata fetch, whose success is the external input `fetchOk`.  On
success the producer is created from the configuration and retained and the
call returns true; on failure it logs a warning and returns false leaving
the struct untouched. -/
def Kafka.connect (self : Kafka) (rdkafka_conf : List (String × String))
    (timeout_ms : Option Nat) (kafkaBrokerEnv : Option String)
    (fetchOk : Bool) : ConnectResult :=
  let rd_conf := buildRdConf rdkafka_conf kafkaBrokerEnv
  let timeout := match timeout_ms with
    | some ms => ms
    | none => 10000
  if fetchOk then
    { ret := true, state := { self with producer := some rd_conf },
      timeoutUsed := timeout }
  else
    { ret := false, state := self, timeoutUsed := timeout }

/-- How sendloop begins (kafka.rs lines 130-133): a panic when no producer
is set, otherwise entry into the delivery loop. -/
inductive SendloopEntry
  | panicked (msg : String)
  | entered
deriving DecidableEq

/-- The producer guard at the top of sendloop. -/
def sendloopEnter (producer : Option ClientConfigM) : SendloopEntry :=
  if producer.isNone then
    SendloopEntry.panicked ("Cannot enter the sendloop() without a valid producer")
  else SendloopEntry.entered

/-- C3: calling sendloop on an engine whose producer was never set (connect
never returned success) panics immediately instead of entering the delivery
loop. -/
theorem sendloop_unconfigured_panics (k : Kafka) (h : k.producer = none) :
    sendloopEnter k.producer =
      SendloopEntry.panicked ("Cannot enter the sendloop() without a valid producer") := by
  rw [h]
  rfl

/-- C3 (witness): a freshly constructed engine (Kafka::new) panics on
sendloop entry. -/
theorem sendloop_unconfigured_panics_witness :
    sendloopEnter (Kafka.new 5).producer =
      SendloopEntry.panicked ("Cannot enter the sendloop() without a valid producer") :=
  sendloop_unconfigured_panics (Kafka.new 5) rfl

/-- C4: when the metadata fetch succeeds, connect returns true and the
engine retains a producer built from the client configuration (Connected);
when the fetch fails, connect returns false and the engine state is exactly
the one before the call — in particular the producer is unchanged. -/
theorem connect_success_failure_behavior (k : Kafka)
    (conf : List (String × String)) (t : Option Nat) (env : Option String) :
    ((Kafka.connect k conf t env true).ret = true ∧
     (Kafka.connect k conf t env true).state.producer = some (buildRdConf conf env)) ∧
    ((Kafka.connect k conf t env false).ret = false ∧
     (Kafka.connect k conf t env false).state = k ∧
     (Kafka.connect k conf t env false).state.producer = k.producer) := by
  refine ⟨⟨rfl, rfl⟩, rfl, rfl, rfl⟩

/-- C9: connect performs the metadata fetch with the caller-supplied timeout
when one is given, and with 10000 ms (`Duration::from_secs(10)`) when the
timeout argument is None. -/
theorem connect_timeout_default (k : Kafka) (conf : List (String × String))
    (env : Option String) (fetchOk : Bool) (ms : Nat) :
    (Kafka.connect k conf (some ms) env fetchOk).timeoutUsed = ms ∧
    (Kafka.connect k conf none env fetchOk).timeoutUsed = 10000 := by
  cases fetchOk <;> exact ⟨rfl, rfl⟩

/-- Folding `set` over entries leaves keys that never occur untouched. -/
theorem foldl_cfgSet_of_notMem (conf : List (String × String)) (c : ClientConfigM)
    (key : String) (h : key ∉ conf.map Prod.fst) :
    (conf.foldl (fun c kv => cfgSet c kv.1 kv.2) c) key = c key := by
  induction conf generalizing c with
  | nil => rfl
  | cons kv rest ih =>
    simp only [List.map_cons, List.mem_cons] at h
    push_neg at h
    rw [List.foldl_cons, ih (cfgSet c kv.1 kv.2) h.2]
    simp [cfgSet, h.1]

/-- With duplicate-free keys, folding `set` over the entries stores each
entry's value under its key. -/
theorem foldl_cfgSet_of_mem (conf : List (String × String)) (c : ClientConfigM)
    (key v : String) (hnodup : (conf.map Prod.fst).Nodup) (hmem : (key, v) ∈ conf) :
    (conf.foldl (fun c kv => cfgSet c kv.1 kv.2) c) key = some v := by
  induction conf generalizing c with
  | nil => cases hmem
  | cons kv rest ih =>
    simp only [List.map_cons, List.nodup_cons] at hnodup
    rcases List.mem_cons.mp hmem with hhead | htail
    · subst hhead
      rw [List.foldl_cons, foldl_cfgSet_of_notMem rest _ key hnodup.1]
      simp [cfgSet]
    · exact List.foldl_cons _ _ ▸ ih (cfgSet c kv.1 kv.2) hnodup.2 htail

/-- C8: if KAFKA_BROKER is set to some broker, the configuration connect
actually uses maps `bootstrap.servers` to that broker, whatever the supplied
map said, and agrees with the non-override configuration on every other key;
if KAFKA_BROKER is unset, every key/value pair of the supplied
(duplicate-free) map is used exactly as given. -/
theorem kafka_broker_env_override (conf : List (String × String))
    (broker key v : String)
    (hnodup : (conf.map Prod.fst).Nodup) (hmem : (key, v) ∈ conf) :
    buildRdConf conf (some broker) ("bootstrap.servers") = some broker ∧
    (key ≠ "bootstrap.servers" →
      buildRdConf conf (some broker) key = buildRdConf conf none key) ∧
    buildRdConf conf none key = some v := by
  refine ⟨?_, ?_, ?_⟩
  · simp [buildRdConf, cfgSet]
  · intro hk
    simp [buildRdConf, cfgSet, hk]
  · exact foldl_cfgSet_of_mem conf cfgEmpty key v hnodup hmem

/-- C8 (witness): with the map mapping bootstrap.servers to x:9092 and acks
to all, the env value b:9092 wins for bootstrap.servers while acks keeps its
supplied value, which is also the value used when the env variable is
unset. -/
theorem kafka_broker_env_override_witness :
    buildRdConf ([(("bootstrap.servers"), ("x:9092")), (("acks"), ("all"))])
        (some ("b:9092")) ("bootstrap.servers") = some ("b:9092") ∧
    buildRdConf ([(("bootstrap.servers"), ("x:9092")), (("acks"), ("all"))])
        (some ("b:9092")) ("acks") =
      buildRdConf ([(("bootstrap.servers"), ("x:9092")), (("acks"), ("all"))])
        none ("acks") ∧
    buildRdConf ([(("bootstrap.servers"), ("x:9092")), (("acks"), ("all"))])
        none ("acks") = some ("all") := by
  have h := kafka_broker_env_override
    ([(("bootstrap.servers"), ("x:9092")), (("acks"), ("all"))])
    ("b:9092") ("acks") ("all") (by decide) (by decide)
  exact ⟨h.1, h.2.1 (by decide), h.2.2⟩

/-- The outcome of one crossbeam bounded-channel send with no receiver
currently draining: either the message is admitted at the tail, or the
channel is at capacity and the sending producer blocks — the channel never
grows past its capacity and never drops the message. -/
inductive SendOutcome (α : Type)
  | sent (q : BoundedChannel α)
  | wouldBlock
deriving DecidableEq

/-- crossbeam `Sender::send` on a bounded channel, observed without a
concurrent receiver: admit in FIFO order while below capacity, otherwise
block. -/
def chanSend {α : Type} (q : BoundedChannel α) (x : α) : SendOutcome α :=
  if q.items.length < q.cap then
    SendOutcome.sent { cap := q.cap, items := q.items ++ [x] }
  else SendOutcome.wouldBlock

/-- crossbeam `Receiver::recv` on a bounded channel: take the oldest queued
message, if any. -/
def chanRecv {α : Type} (q : BoundedChannel α) : Option (α × BoundedChannel α) :=
  match q.items with
  | [] => none
  | x :: rest => some (x, { cap := q.cap, items := rest })

/-- Sequentially send a list of messages, stopping (with none) at the first
send that would block. -/
def chanSendAll {α : Type} (q : BoundedChannel α) : List α → Option (BoundedChannel α)
  | [] => some q
  | x :: xs =>
    match chanSend q x with
    | SendOutcome.sent q2 => chanSendAll q2 xs
    | SendOutcome.wouldBlock => none

/-- Sends that fit within the remaining capacity all succeed and append in
order. -/
theorem chanSendAll_fills {α : Type} (xs : List α) (q : BoundedChannel α)
    (h : q.items.length + xs.length ≤ q.cap) :
    chanSendAll q xs = some { cap := q.cap, items := q.items ++ xs } := by
  induction xs generalizing q with
  | nil => simp [chanSendAll]
  | cons x rest ih =>
    have hlen : q.items.length + rest.length + 1 ≤ q.cap := by
      simp only [List.length_cons] at h
      omega
    have hlt : q.items.length < q.cap := by omega
    have hx : (q.items ++ [x]).length = q.items.length + 1 := by simp
    have hrec := ih { cap := q.cap, items := q.items ++ [x] }
      (by show (q.items ++ [x]).length + rest.length ≤ q.cap
          rw [hx]
          omega)
    rw [chanSendAll, chanSend, if_pos hlt]
    show chanSendAll { cap := q.cap, items := q.items ++ [x] } rest =
      some { cap := q.cap, items := q.items ++ x :: rest }
    rw [hrec]
    simp

/-- C6: the relay channel constructed by Kafka::new(N) is a bounded FIFO of
fixed capacity N: with no consumer draining it, any N messages are admitted
in order, the (N+1)-th send blocks the producer (the channel neither grows
nor drops the message), and once the consumer drains one message a further
send is admitted. -/
theorem relay_queue_bounded_fifo (N : Nat) (xs : List KafkaMessage)
    (x : KafkaMessage) (h : xs.length = N) :
    chanSendAll (Kafka.new N).chan xs = some { cap := N, items := xs } ∧
    chanSend { cap := N, items := xs } x = SendOutcome.wouldBlock ∧
    (0 < N → ∃ y q2, chanRecv { cap := N, items := xs } = some (y, q2) ∧
      ∃ q3, chanSend q2 x = SendOutcome.sent q3) := by
  refine ⟨?_, ?_, ?_⟩
  · have hcap : (Kafka.new N).chan.items.length + xs.length ≤ (Kafka.new N).chan.cap := by
      simp [Kafka.new]
      omega
    have := chanSendAll_fills xs (Kafka.new N).chan hcap
    simpa [Kafka.new] using this
  · have hfull : ¬ xs.length < N := by omega
    rw [chanSend, if_neg hfull]
  · intro hN
    cases xs with
    | nil =>
      simp at h
      omega
    | cons y rest =>
      have hr : rest.length < N := by
        simp only [List.length_cons] at h
        omega
      exact ⟨y, { cap := N, items := rest }, rfl,
        { cap := N, items := rest ++ [x] }, by rw [chanSend, if_pos hr]⟩

/-- C6 (witness): the bounded-FIFO theorem instantiated at capacity 2 with
two queued messages and a third that blocks. -/
theorem relay_queue_bounded_fifo_witness :
    chanSendAll (Kafka.new 2).chan
        ([KafkaMessage.new ("logs") ("a"), KafkaMessage.new ("logs") ("b")]) =
      some { cap := 2,
             items := [KafkaMessage.new ("logs") ("a"), KafkaMessage.new ("logs") ("b")] } ∧
    chanSend
        { cap := 2,
          items := [KafkaMessage.new ("logs") ("a"), KafkaMessage.new ("logs") ("b")] }
        (KafkaMessage.new ("logs") ("c")) = SendOutcome.wouldBlock ∧
    (0 < 2 → ∃ y q2, chanRecv
        { cap := 2,
          items := [KafkaMessage.new ("logs") ("a"), KafkaMessage.new ("logs") ("b")] } =
        some (y, q2) ∧
      ∃ q3, chanSend q2 (KafkaMessage.new ("logs") ("c")) = SendOutcome.sent q3) :=
  relay_queue_bounded_fifo 2
    ([KafkaMessage.new ("logs") ("a"), KafkaMessage.new ("logs") ("b")])
    (KafkaMessage.new ("logs") ("c")) rfl

/-- The state of the connection-count bookkeeping in accept_loop
(serve_tls.rs lines 97-136): `active` sessions spawned and not yet finished,
total accepted connections, total completed sessions, and the counter
thread's running total `connections` (published to the `connections`
gauge after every delta). -/
structure ConnTrackState where
  active : Nat
  accepts : Nat
  completions : Nat
  connections : Int
deriving DecidableEq

/-- The observable connection events: an accept (the loop sends +1 on the
counter channel before spawning the session, line 117) and a session
completion (the spawned task sends -1 after handle_connection returns, line
134).  A completion can only happen for a previously spawned, still active
session. -/
inductive ConnEvent
  | accept
  | complete
deriving DecidableEq

/-- Before any connection arrives every quantity is zero (`connections`
starts at 0, line 104). -/
def connInit : ConnTrackState :=
  { active := 0, accepts := 0, completions := 0, connections := 0 }

/-- One connection event folded into the state, with the counter thread
applying the corresponding +1 or -1 delta (line 108).  `complete` is
impossible with no active session. -/
def connStep : ConnTrackState → ConnEvent → Option ConnTrackState
  | s, .accept =>
    some { s with
      active := s.active + 1
      accepts := s.accepts + 1
      connections := s.connections + 1 }
  | s, .complete =>
    match s.active with
    | 0 => none
    | n + 1 =>
      some { s with
        active := n
        completions := s.completions + 1
        connections := s.connections - 1 }

/-- Fold a sequence of connection events from a starting state. -/
def connRun : ConnTrackState → List ConnEvent → Option ConnTrackState
  | s, [] => some s
  | s, e :: es =>
    match connStep s e with
    | some s2 => connRun s2 es
    | none => none

/-- The bookkeeping invariant: the published total equals the number of
active sessions, and accepts split into completions plus active sessions. -/
def ConnInv (s : ConnTrackState) : Prop :=
  s.connections = (s.active : Int) ∧ s.accepts = s.completions + s.active

/-- An accept step bumps active, accepts and the running total. -/
theorem connStep_accept (s : ConnTrackState) :
    connStep s ConnEvent.accept =
      some { s with
        active := s.active + 1
        accepts := s.accepts + 1
        connections := s.connections + 1 } := rfl

/-- A completion step with no active session cannot occur. -/
theorem connStep_complete_zero (s : ConnTrackState) (hact : s.active = 0) :
    connStep s ConnEvent.complete = none := by
  simp only [connStep]
  rw [hact]

/-- A completion step with an active session retires it and decrements the
running total. -/
theorem connStep_complete_succ (s : ConnTrackState) (n : Nat)
    (hact : s.active = n + 1) :
    connStep s ConnEvent.complete =
      some { s with
        active := n
        completions := s.completions + 1
        connections := s.connections - 1 } := by
  simp only [connStep]
  rw [hact]

/-- Every step of the connection bookkeeping preserves the invariant. -/
theorem connRun_preserves (es : List ConnEvent) (s s2 : ConnTrackState)
    (hinv : ConnInv s) (hrun : connRun s es = some s2) : ConnInv s2 := by
  induction es generalizing s with
  | nil =>
    simp only [connRun, Option.some.injEq] at hrun
    exact hrun ▸ hinv
  | cons e rest ih =>
    have h1 : s.connections = (s.active : Int) := hinv.1
    have h2 : s.accepts = s.completions + s.active := hinv.2
    cases e with
    | accept =>
      simp only [connRun, connStep_accept] at hrun
      refine ih _ ⟨?_, ?_⟩ hrun
      · show s.connections + 1 = ((s.active + 1 : Nat) : Int)
        omega
      · show s.accepts + 1 = s.completions + (s.active + 1)
        omega
    | complete =>
      cases hact : s.active with
      | zero =>
        simp [connRun, connStep_complete_zero s hact] at hrun
      | succ n =>
        simp only [connRun, connStep_complete_succ s n hact] at hrun
        refine ih _ ⟨?_, ?_⟩ hrun
        · show s.connections - 1 = (n : Int)
          omega
        · show s.accepts = (s.completions + 1) + n
          omega

/-- C7: at every observation point of the counter thread — after any
realizable sequence of accept/complete events starting from an idle
accept_loop — the published connection total is non-negative and equals the
number of accepted connections minus the number of completed sessions. -/
theorem connection_gauge_invariant (es : List ConnEvent) (s : ConnTrackState)
    (h : connRun connInit es = some s) :
    0 ≤ s.connections ∧
    s.connections = (s.accepts : Int) - (s.completions : Int) := by
  have hinv := connRun_preserves es connInit s ⟨rfl, rfl⟩ h
  constructor
  · rw [hinv.1]
    exact Int.ofNat_nonneg s.active
  · rw [hinv.1]
    have := hinv.2
    omega

/-- C7 (witness): two accepts followed by one completion leave the gauge at
1 = 2 - 1 and non-negative. -/
theorem connection_gauge_invariant_witness :
    0 ≤ (ConnTrackState.mk 1 2 1 1).connections ∧
    (ConnTrackState.mk 1 2 1 1).connections =
      ((ConnTrackState.mk 1 2 1 1).accepts : Int) -
        ((ConnTrackState.mk 1 2 1 1).completions : Int) :=
  connection_gauge_invariant ([ConnEvent.accept, ConnEvent.accept, ConnEvent.complete])
    (ConnTrackState.mk 1 2 1 1) (by decide)

/-- The kind of a std::io error as used by serve_tls.rs (load failures are
wrapped as InvalidInput; file-open failures keep their own kind). -/
inductive ErrorKind
  | invalidInput
  | otherKind
deriving DecidableEq

/-- A std::io error: its kind and message. -/
structure IoError where
  kind : ErrorKind
  msg : String
deriving DecidableEq

/-- A parsed certificate (opaque payload). -/
abbrev Certificate := String

/-- A parsed private key (opaque payload). -/
abbrev PrivateKey := String

/-- The listen-mode setting matched by load_tls_config: serve_tls.rs matches
`TlsType::CertAndKey { cert, key }` (the two fields are filesystem paths)
and a wildcard arm for every other variant of settings::TlsType. -/
inductive TlsType
  | certAndKey (cert : String) (key : String)
  | otherMode
deriving DecidableEq

/-- A rustls ServerConfig as assembled by load_tls_config: the loaded
certificate chain together with the single private key passed to
set_single_cert. -/
structure ServerConfig where
  certChain : List Certificate
  privateKey : PrivateKey
deriving DecidableEq

/-- How a call to load_tls_config ends: a config, an io error return, or a
Rust panic. -/
inductive TlsConfigOutcome
  | ok (config : ServerConfig)
  | ioErr (e : IoError)
  | panicked (msg : String)
deriving DecidableEq

/-- load_tls_config (serve_tls.rs lines 41-60).  `certsResult` and
`keysResult` are the results of load_certs/load_keys (file reads — external
inputs); `setSingleCert` is rustls's set_single_cert result, whose error is
wrapped into an InvalidInput io error.  `keys.remove(0)` on an empty Vec
panics with Rust's out-of-bounds removal message; the non-CertAndKey arm
panics explicitly. -/
def load_tls_config (tls : TlsType)
    (certsResult : Except IoError (List Certificate))
    (keysResult : Except IoError (List PrivateKey))
    (setSingleCert : Except String Unit) : TlsConfigOutcome :=
  match tls with
  | .certAndKey _ _ =>
    match certsResult with
    | .error e => TlsConfigOutcome.ioErr e
    | .ok certs =>
      match keysResult with
      | .error e => TlsConfigOutcome.ioErr e
      | .ok keys =>
        match keys with
        | [] => TlsConfigOutcome.panicked ("removal index (is 0) should be < len (is 0)")
        | k :: _ =>
          match setSingleCert with
          | .error err => TlsConfigOutcome.ioErr { kind := ErrorKind.invalidInput, msg := err }
          | .ok _ => TlsConfigOutcome.ok { certChain := certs, privateKey := k }
  | .otherMode =>
    TlsConfigOutcome.panicked ("Attempted to load a TLS configuration despite TLS not being enabled")

/-- C10: with a CertAndKey listen mode, when the certificate and key files
both load successfully but the key file yields an empty list of private
keys, load_tls_config panics (Vec::remove(0) on an empty vector) instead of
returning an invalid-input error. -/
theorem load_tls_config_empty_keys_panics (cert key : String)
    (certs : List Certificate) (setSingleCert : Except String Unit) :
    load_tls_config (TlsType.certAndKey cert key) (Except.ok certs) (Except.ok [])
        setSingleCert =
      TlsConfigOutcome.panicked ("removal index (is 0) should be < len (is 0)") := rfl

/-- How the startup phase of accept_loop (serve_tls.rs lines 62-92) ends:
an error return (the `?` on load_tls_config) before any socket exists, an
early `Ok(())` return after a failed broker connect, a propagated panic, or
reaching TcpListener::bind and the serving loop. -/
inductive AcceptLoopOutcome
  | errReturn (e : IoError)
  | okEarlyReturn
  | panicked (msg : String)
  | boundAndServing
deriving DecidableEq

/-- The startup phase of accept_loop: `load_tls_config(&settings)?`, then
`Kafka::new(buffer)` and `connect` with the configured timeout; a failed
connect logs an error and returns `Ok(())`; on success the sendloop task is
spawned and the listener is bound.  `fetchOk` abstracts the metadata fetch
inside connect. -/
def acceptLoopStartup (tls : TlsType)
    (certsResult : Except IoError (List Certificate))
    (keysResult : Except IoError (List PrivateKey))
    (setSingleCert : Except String Unit)
    (buffer : Nat) (conf : List (String × String)) (timeout_ms : Nat)
    (kafkaBrokerEnv : Option String) (fetchOk : Bool) : AcceptLoopOutcome :=
  match load_tls_config tls certsResult keysResult setSingleCert with
  | TlsConfigOutcome.panicked m => AcceptLoopOutcome.panicked m
  | TlsConfigOutcome.ioErr e => AcceptLoopOutcome.errReturn e
  | TlsConfigOutcome.ok _ =>
    let kafka := Kafka.new buffer
    let c := Kafka.connect kafka conf (some timeout_ms) kafkaBrokerEnv fetchOk
    if c.ret then AcceptLoopOutcome.boundAndServing else AcceptLoopOutcome.okEarlyReturn

/-- Recognizes an error return of accept_loop. -/
def isErrReturn : AcceptLoopOutcome → Bool
  | .errReturn _ => true
  | _ => false

/-- C5 (counterexample): with valid TLS material but an unreachable broker,
accept_loop returns early with the success value `Ok(())` — the broker
failure is not propagated up as an error, contradicting the claim that every
startup-fatal error propagates the failure up. -/
theorem accept_loop_broker_failure_counterexample :
    acceptLoopStartup (TlsType.certAndKey ("cert.pem") ("key.pem"))
        (Except.ok [("CERT")]) (Except.ok [("KEY")]) (Except.ok ())
        10 ([(("bootstrap.servers"), ("x:9092"))]) 1000 none false =
      AcceptLoopOutcome.okEarlyReturn ∧
    isErrReturn
      (acceptLoopStartup (TlsType.certAndKey ("cert.pem") ("key.pem"))
        (Except.ok [("CERT")]) (Except.ok [("KEY")]) (Except.ok ())
        10 ([(("bootstrap.servers"), ("x:9092"))]) 1000 none false) = false := by
  exact ⟨rfl, rfl⟩

/-- C5 (amended): certificate load failure, key load failure and TLS-config
construction failure are propagated up as error returns from accept_loop; a
broker unreachable within the timeout instead logs an error and returns
early with the success value; in every one of these failure cases
accept_loop returns without binding the listening socket or serving any
connection (no partial startup). -/
theorem accept_loop_startup_errors (cert key : String)
    (certsResult : Except IoError (List Certificate))
    (keysResult : Except IoError (List PrivateKey))
    (setSingleCert : Except String Unit)
    (buffer : Nat) (conf : List (String × String)) (timeout_ms : Nat)
    (kafkaBrokerEnv : Option String) (fetchOk : Bool) :
    (∀ e, certsResult = Except.error e →
      acceptLoopStartup (TlsType.certAndKey cert key) certsResult keysResult
        setSingleCert buffer conf timeout_ms kafkaBrokerEnv fetchOk =
      AcceptLoopOutcome.errReturn e) ∧
    (∀ e certs, certsResult = Except.ok certs → keysResult = Except.error e →
      acceptLoopStartup (TlsType.certAndKey cert key) certsResult keysResult
        setSingleCert buffer conf timeout_ms kafkaBrokerEnv fetchOk =
      AcceptLoopOutcome.errReturn e) ∧
    (∀ certs k0 ks err, certsResult = Except.ok certs →
      keysResult = Except.ok (k0 :: ks) → setSingleCert = Except.error err →
      acceptLoopStartup (TlsType.certAndKey cert key) certsResult keysResult
        setSingleCert buffer conf timeout_ms kafkaBrokerEnv fetchOk =
      AcceptLoopOutcome.errReturn { kind := ErrorKind.invalidInput, msg := err }) ∧
    (∀ certs k0 ks, certsResult = Except.ok certs →
      keysResult = Except.ok (k0 :: ks) → setSingleCert = Except.ok () →
      fetchOk = false →
      acceptLoopStartup (TlsType.certAndKey cert key) certsResult keysResult
        setSingleCert buffer conf timeout_ms kafkaBrokerEnv fetchOk =
      AcceptLoopOutcome.okEarlyReturn) ∧
    (((∃ e, certsResult = Except.error e) ∨ (∃ e, keysResult = Except.error e) ∨
        (∃ err, setSingleCert = Except.error err) ∨ fetchOk = false) →
      acceptLoopStartup (TlsType.certAndKey cert key) certsResult keysResult
        setSingleCert buffer conf timeout_ms kafkaBrokerEnv fetchOk ≠
      AcceptLoopOutcome.boundAndServing) := by
  refine ⟨?_, ?_, ?_, ?_, ?_⟩
  · intro e he
    subst he
    rfl
  · intro e certs hc hk
    subst hc
    subst hk
    rfl
  · intro certs k0 ks err hc hk hs
    subst hc
    subst hk
    subst hs
    rfl
  · intro certs k0 ks hc hk hs hf
    subst hc
    subst hk
    subst hs
    subst hf
    rfl
  · intro hfail
    rcases certsResult with e | certs
    · intro hcontra
      exact AcceptLoopOutcome.noConfusion hcontra
    · rcases keysResult with e | keys
      · intro hcontra
        exact AcceptLoopOutcome.noConfusion hcontra
      · cases keys with
        | nil =>
          intro hcontra
          exact AcceptLoopOutcome.noConfusion hcontra
        | cons k0 ks =>
          rcases setSingleCert with err | u
          · intro hcontra
            exact AcceptLoopOutcome.noConfusion hcontra
          · rcases hfail with ⟨e, he⟩ | ⟨e, he⟩ | ⟨err, herr⟩ | hf
            · exact absurd he (by simp)
            · exact absurd he (by simp)
            · exact absurd herr (by simp)
            · subst hf
              intro hcontra
              exact AcceptLoopOutcome.noConfusion hcontra

/-- C5 (witness): a certificate-file read failure is returned as that very
io error, and a broker-connect failure yields the early success return. -/
theorem accept_loop_startup_errors_witness :
    acceptLoopStartup (TlsType.certAndKey ("cert.pem") ("key.pem"))
        (Except.error { kind := ErrorKind.otherKind, msg := ("no such file") })
        (Except.ok [("KEY")]) (Except.ok ())
        10 ([(("bootstrap.servers"), ("x:9092"))]) 1000 none true =
      AcceptLoopOutcome.errReturn { kind := ErrorKind.otherKind, msg := ("no such file") } :=
  (accept_loop_startup_errors ("cert.pem") ("key.pem")
      (Except.error { kind := ErrorKind.otherKind, msg := ("no such file") })
      (Except.ok [("KEY")]) (Except.ok ())
      10 ([(("bootstrap.servers"), ("x:9092"))]) 1000 none true).1
    { kind := ErrorKind.otherKind, msg := ("no such file") } rfl
